import Mathlib

/-!
Shallow embedding of `src/cvpy/biomedimage/BiomedImage.py` (the `BiomedImage`
class: constructor, `quantify_sphericity`, `mask_image`).

The module is a thin client over a remote CAS server: each method issues a
fixed sequence of remote requests.  We embed each remote request as a value of
an inductive `Request` type carrying the exact parameters the Python code
marshals, and we model the remote layer by a success oracle
`Env : Request → Bool` (the remote server is an opaque external dependency:
any request may raise).  A method run is the list of requests actually issued
(its trace) together with either success or the first failing request (the
Python exception propagates unmodified, aborting the method).
-/

set_option maxRecDepth 100000

namespace CVPy

/-- `cvpy.biomedimage.LabelConnectivity`: enumeration with members
`FACE` and `VERTEX`; the code passes `label_connectivity.name` through. -/
inductive LabelConnectivity where
  | FACE
  | VERTEX
deriving DecidableEq, Repr

/-- Python's `Enum.name` for `LabelConnectivity`. -/
def LabelConnectivity.enumName : LabelConnectivity → String
  | .FACE => "FACE"
  | .VERTEX => "VERTEX"

/-- Modelled from the spec: `cvpy/base/ImageTable.py` is not under `src/`.
Per the spec (§3) an `ImageTable` is "an external entity representing a named
remote table plus column-name metadata (which column holds image bytes,
dimension vector, resolution, format, and an identifier column)", and
`mask.has_decoded_images()` reports whether the table carries decoded (raw
array) rather than encoded (blob) images.  `tableName` is
`imageTable.table.name`, the name of the underlying remote table. -/
structure ImageTable where
  tableName : String
  image : String
  dimension : String
  resolution : String
  imageFormat : String
  idColumn : String
  decodedImages : Bool
deriving DecidableEq, Repr

/-- `has_decoded_images()` of the external `ImageTable` collaborator. -/
def ImageTable.hasDecodedImages (t : ImageTable) : Bool := t.decodedImages

/-- One `dict(name=..., rename=...)` column directive of `table.altertable`. -/
structure RenameDirective where
  name : String
  rename : String
deriving DecidableEq, Repr

/-- One `dict(quantityparameters=...)` entry of the `quantities` list of
`biomedimage.quantifybiomedimages`; `useSpacing` is only present for the
`content` quantity. -/
structure QuantityParams where
  quantitytype : String
  useSpacing : Option Bool
deriving DecidableEq, Repr

/-- The `binaryoperation` dict passed to `biomedimage.processbiomedimages`.
In the decoded branch the code supplies `dimension`/`resolution`/`imageformat`
keys; in the encoded branch those keys are absent (`none`). -/
structure BinaryOperationDict where
  binaryoperationtype : String
  image : String
  dimension : Option String
  resolution : Option String
  imageformat : Option String
  outputBackground : Int
  inputBackground : Int
deriving DecidableEq, Repr

/-- A remote request issued over the CAS session, with the parameters the
Python code marshals.  Table-valued arguments (`images=dict(table=...)`,
`name=mask.table`, `dropTable(_images_to_mask_)`) are embedded as the name of
the remote table they denote. -/
inductive Request where
  | loadactionset (name : String)
  | quantifybiomedimages (imagesTable : String) (copyvars : List String)
      (region : String) (quantities : List QuantityParams)
      (labelType : String) (connectivity : String)
      (inputbackground : Rat) (casoutName : String)
  | execdirect (sql : String)
  | droptable (name : String)
  | altertable (name : String) (columns : List RenameDirective)
  | processbiomedimages (imagesTable : String) (steptype : String)
      (binaryoperation : BinaryOperationDict) (decode : Bool)
      (addcolumns : Option (List String)) (casoutName : String)
      (copyvars : Option (List String))
deriving DecidableEq, Repr

/-- `true` on requests issued by `table.dropTable`. -/
def Request.isDrop : Request → Bool
  | .droptable _ => true
  | _ => false

/-- `true` on requests issued by `biomedimage.processbiomedimages`. -/
def Request.isProcess : Request → Bool
  | .processbiomedimages _ _ _ _ _ _ _ => true
  | _ => false

/-- The remote layer: which requests succeed.  The server is opaque and
outside this repository, so any request may raise; `env r = false` means the
remote call `r` raises an exception. -/
def Env : Type := Request → Bool

instance : DecidableEq (Except Request Unit) := fun a b =>
  match a, b with
  | .ok (), .ok () => isTrue rfl
  | .ok (), .error _ => isFalse (fun h => Except.noConfusion h)
  | .error _, .ok () => isFalse (fun h => Except.noConfusion h)
  | .error r, .error s =>
      if h : r = s then isTrue (by rw [h])
      else isFalse (fun he => h (by cases he; rfl))

/-- Result of running a method body: the requests actually issued, in order,
and either success or the first request whose remote call raised.  A raising
request was still issued (the exception happens on the remote round trip), so
it is the last element of the trace. -/
structure Outcome where
  trace : List Request
  result : Except Request Unit
deriving DecidableEq, Repr

/-- Issue a fixed sequence of remote requests in order, stopping at (and
recording) the first failure.  This is the control flow of a straight-line
Python method body whose statements are remote calls: a raised exception
aborts the rest of the body and propagates unmodified. -/
def runSeq (env : Env) : List Request → Outcome
  | [] => { trace := [], result := .ok () }
  | r :: rs =>
      if env r then
        let o := runSeq env rs
        { trace := r :: o.trace, result := o.result }
      else
        { trace := [r], result := .error r }

/-- The `fedsql.execdirect` statement of `quantify_sphericity`: the exact
f-string of the source (triple-quoted, with its literal newlines, 12-space
indentation and trailing spaces), with `sphericity.name` interpolated. -/
def sphericitySQL (outName : String) : String :=
  "\n            create table " ++ outName ++ " as \n            select _path_,_perimeter_,_content_, (power(pi(), 1.0/3.0) * power(6*_content_, 2.0/3.0))/_perimeter_ as \n            sphericity from quantify\n            "

/-- The `biomedimage.quantifybiomedimages` request of `quantify_sphericity`,
with every parameter the source marshals. -/
def quantifyRequest (image_table : ImageTable) (use_spacing : Bool)
    (input_background : Rat) (label_connectivity : LabelConnectivity) : Request :=
  .quantifybiomedimages image_table.tableName ["_path_"] "COMPONENT"
    [⟨"perimeter", none⟩, ⟨"content", some use_spacing⟩]
    "basic" label_connectivity.enumName input_background "quantify"

/-- `BiomedImage.quantify_sphericity`: quantify perimeter/content of each
component into the fixed table `quantify`, derive the sphericity projection
into the caller-named table via `fedsql.execdirect`, then drop `quantify`. -/
def quantify_sphericity (env : Env) (image_table : ImageTable)
    (use_spacing : Bool) (input_background : Rat)
    (label_connectivity : LabelConnectivity) (sphericityName : String) :
    Outcome :=
  runSeq env
    [ quantifyRequest image_table use_spacing input_background label_connectivity,
      .execdirect (sphericitySQL sphericityName),
      .droptable "quantify" ]

/-- The `alter_columns` list of the decoded branch of `mask_image`:
four `dict(name=..., rename=...)` directives. -/
def decodedAlterColumns (mask : ImageTable) : List RenameDirective :=
  [⟨mask.image, "seg"⟩, ⟨mask.dimension, "dim"⟩,
   ⟨mask.resolution, "res"⟩, ⟨mask.imageFormat, "form"⟩]

/-- The `alter_columns` list of the encoded branch of `mask_image`:
a single directive renaming the image column. -/
def encodedAlterColumns (mask : ImageTable) : List RenameDirective :=
  [⟨mask.image, "seg"⟩]

/-- The `fed_sql_str` f-string of the decoded branch of `mask_image`, exactly
as the source builds it (literal newlines, 16-space indentation, trailing
spaces), with `mask.table.name` and `image.table.name` interpolated. -/
def decodedFedSqlStr (maskTableName imageTableName : String) : String :=
  "create table _images_to_mask_ as \n                select a.seg, a.dim, a.res, a.form, b.* \n                from " ++ maskTableName ++ " as a inner join " ++ imageTableName ++ " as b \n                on a._id_=b._id_"

/-- The `fed_sql_str` f-string of the encoded branch of `mask_image`. -/
def encodedFedSqlStr (maskTableName imageTableName : String) : String :=
  "create table _images_to_mask_ as \n                select a.seg, b.* \n                from " ++ maskTableName ++ " as a inner join " ++ imageTableName ++ " as b \n                on a._id_=b._id_"

/-- The `binary_operation_dict` of the decoded branch. -/
def decodedBinaryOperation (output_background input_background : Int) :
    BinaryOperationDict :=
  ⟨"mask_specific", "seg", some "dim", some "res", some "form",
   output_background, input_background⟩

/-- The `binary_operation_dict` of the encoded branch: no
dimension/resolution/imageformat keys. -/
def encodedBinaryOperation (output_background input_background : Int) :
    BinaryOperationDict :=
  ⟨"mask_specific", "seg", none, none, none,
   output_background, input_background⟩

/-- The local `rename_columns()` closure of the decoded branch: mutates the
caller's `mask` object in place, reassigning all four column-name fields. -/
def renameColumnsDecoded (mask : ImageTable) : ImageTable :=
  { mask with image := "seg", dimension := "dim",
              resolution := "res", imageFormat := "form" }

/-- The local `rename_columns()` closure of the encoded branch: only the
image column name is reassigned. -/
def renameColumnsEncoded (mask : ImageTable) : ImageTable :=
  { mask with image := "seg" }

/-- Result of a `mask_image` run: the issued requests, success or the first
failing request, and the state of the caller's `mask` object when the method
returns or the exception propagates. -/
structure MaskOutcome where
  trace : List Request
  result : Except Request Unit
  mask : ImageTable
deriving DecidableEq, Repr

/-- `BiomedImage.mask_image`: branch on `mask.has_decoded_images()` to build
the alter-table directives, the join SQL and the binary-operation dict; then
issue alter-table, the join SQL, `processbiomedimages` over the joined table
`_images_to_mask_`, and a drop of `_images_to_mask_`; finally (only when all
of that returned) run the local `rename_columns()` closure on `mask`. -/
def mask_image (env : Env) (image mask : ImageTable) (casoutName : String)
    (input_background : Int) (decode : Bool) (output_background : Int)
    (add_columns : Option (List String)) (copy_vars : Option (List String)) :
    MaskOutcome :=
  let alter_columns :=
    if mask.hasDecodedImages then decodedAlterColumns mask
    else encodedAlterColumns mask
  let fed_sql_str :=
    if mask.hasDecodedImages then decodedFedSqlStr mask.tableName image.tableName
    else encodedFedSqlStr mask.tableName image.tableName
  let binary_operation_dict :=
    if mask.hasDecodedImages then
      decodedBinaryOperation output_background input_background
    else encodedBinaryOperation output_background input_background
  let o := runSeq env
    [ .altertable mask.tableName alter_columns,
      .execdirect fed_sql_str,
      .processbiomedimages "_images_to_mask_" "binary_operation"
        binary_operation_dict decode add_columns casoutName copy_vars,
      .droptable "_images_to_mask_" ]
  match o.result with
  | .ok () =>
      { trace := o.trace, result := .ok (),
        mask := if mask.hasDecodedImages then renameColumnsDecoded mask
                else renameColumnsEncoded mask }
  | .error r => { trace := o.trace, result := .error r, mask := mask }

/-- Opaque remote session handle (`swat.CAS`); created externally. -/
structure CAS where
  sessionId : Nat
deriving DecidableEq, Repr

/-- The `BiomedImage` wrapper object: stores the session handle passed to the
constructor (the attribute may later be reassigned through the setter, so it
is an `Option` exactly like the Python attribute, whose declared default is
`None`). -/
structure BiomedImage where
  cas_session : Option CAS
deriving DecidableEq, Repr

/-- Why `BiomedImage.__init__` can raise: calling `.loadactionset` on a
`None` session raises `AttributeError` locally before any remote request, or
one of the three `loadactionset` remote calls raises. -/
inductive InitError where
  | attributeErrorNoneSession
  | remote (r : Request)
deriving DecidableEq, Repr

instance : DecidableEq (Except InitError BiomedImage) := fun a b =>
  match a, b with
  | .ok x, .ok y =>
      if h : x = y then isTrue (by rw [h])
      else isFalse (fun he => h (by cases he; rfl))
  | .ok _, .error _ => isFalse (fun h => Except.noConfusion h)
  | .error _, .ok _ => isFalse (fun h => Except.noConfusion h)
  | .error r, .error s =>
      if h : r = s then isTrue (by rw [h])
      else isFalse (fun he => h (by cases he; rfl))

/-- Result of running the constructor: the requests issued and either the
constructed instance or the propagated exception. -/
structure InitOutcome where
  trace : List Request
  result : Except InitError BiomedImage
deriving DecidableEq, Repr

/-- `BiomedImage.__init__(cas_session)`: store the handle, then invoke
`loadactionset` for `image`, `biomedimage` and `fedsql` on it.  With a `None`
session the first attribute access raises before any remote request; on a
remote failure the exception propagates and no instance is returned. -/
def BiomedImage.init (env : Env) (cas_session : Option CAS) : InitOutcome :=
  match cas_session with
  | none => { trace := [], result := .error .attributeErrorNoneSession }
  | some s =>
      let o := runSeq env
        [ .loadactionset "image", .loadactionset "biomedimage",
          .loadactionset "fedsql" ]
      { trace := o.trace,
        result := match o.result with
                  | .ok () => .ok { cas_session := some s }
                  | .error r => .error (.remote r) }

/-! Concrete fixtures used by witness and counterexample theorems. -/

/-- A concrete decoded-image table. -/
def exMaskDecoded : ImageTable :=
  ⟨"lesion_masks", "_image_", "_dimension_", "_resolution_",
   "_imageFormat_", "_id_", true⟩

/-- A concrete encoded-image table. -/
def exMaskEncoded : ImageTable :=
  ⟨"lesion_masks", "_image_", "_dimension_", "_resolution_",
   "_imageFormat_", "_id_", false⟩

/-- A concrete input image table. -/
def exImage : ImageTable :=
  ⟨"ct_scans", "_image_", "_dimension_", "_resolution_",
   "_imageFormat_", "_id_", true⟩

/-- A remote layer on which every request succeeds. -/
def envAllOk : Env := fun _ => true

/-- A remote layer on which exactly the `fedsql.execdirect` requests raise. -/
def envFailSql : Env := fun r =>
  match r with
  | .execdirect _ => false
  | _ => true

/-- The `table.altertable` request of `mask_image`. -/
def maskAlterRequest (mask : ImageTable) : Request :=
  .altertable mask.tableName
    (if mask.hasDecodedImages then decodedAlterColumns mask
     else encodedAlterColumns mask)

/-- The `fedsql.execdirect` join request of `mask_image`. -/
def maskJoinRequest (image mask : ImageTable) : Request :=
  .execdirect
    (if mask.hasDecodedImages then decodedFedSqlStr mask.tableName image.tableName
     else encodedFedSqlStr mask.tableName image.tableName)

/-- The `biomedimage.processbiomedimages` request of `mask_image`. -/
def maskProcessRequest (mask : ImageTable) (casoutName : String) (ib : Int)
    (dec : Bool) (ob : Int) (ac cv : Option (List String)) : Request :=
  .processbiomedimages "_images_to_mask_" "binary_operation"
    (if mask.hasDecodedImages then decodedBinaryOperation ob ib
     else encodedBinaryOperation ob ib)
    dec ac casoutName cv

/-- The branch-appropriate `rename_columns()` closure of `mask_image`. -/
def maskRename (mask : ImageTable) : ImageTable :=
  if mask.hasDecodedImages then renameColumnsDecoded mask
  else renameColumnsEncoded mask

/-- Case analysis of a `quantify_sphericity` run over the success oracle:
each request is issued in order until the first failure. -/
theorem quantify_sphericity_run (env : Env) (it : ImageTable) (us : Bool)
    (ib : Rat) (lc : LabelConnectivity) (out : String) :
    quantify_sphericity env it us ib lc out =
      (if env (quantifyRequest it us ib lc) = false then
        ⟨[quantifyRequest it us ib lc], .error (quantifyRequest it us ib lc)⟩
      else if env (.execdirect (sphericitySQL out)) = false then
        ⟨[quantifyRequest it us ib lc, .execdirect (sphericitySQL out)],
         .error (.execdirect (sphericitySQL out))⟩
      else if env (.droptable "quantify") = false then
        ⟨[quantifyRequest it us ib lc, .execdirect (sphericitySQL out),
          .droptable "quantify"],
         .error (.droptable "quantify")⟩
      else
        ⟨[quantifyRequest it us ib lc, .execdirect (sphericitySQL out),
          .droptable "quantify"],
         .ok ()⟩) := by
  cases h1 : env (quantifyRequest it us ib lc) <;>
    cases h2 : env (Request.execdirect (sphericitySQL out)) <;>
      cases h3 : env (Request.droptable "quantify") <;>
        simp [quantify_sphericity, runSeq, h1, h2, h3]

/-- Case analysis of a `mask_image` run over the success oracle: each request
is issued in order until the first failure, and the local rename of `mask`
happens exactly when all four requests succeeded. -/
theorem mask_image_run (env : Env) (image mask : ImageTable) (co : String)
    (ib : Int) (dec : Bool) (ob : Int) (ac cv : Option (List String)) :
    mask_image env image mask co ib dec ob ac cv =
      (if env (maskAlterRequest mask) = false then
        ⟨[maskAlterRequest mask], .error (maskAlterRequest mask), mask⟩
      else if env (maskJoinRequest image mask) = false then
        ⟨[maskAlterRequest mask, maskJoinRequest image mask],
         .error (maskJoinRequest image mask), mask⟩
      else if env (maskProcessRequest mask co ib dec ob ac cv) = false then
        ⟨[maskAlterRequest mask, maskJoinRequest image mask,
          maskProcessRequest mask co ib dec ob ac cv],
         .error (maskProcessRequest mask co ib dec ob ac cv), mask⟩
      else if env (.droptable "_images_to_mask_") = false then
        ⟨[maskAlterRequest mask, maskJoinRequest image mask,
          maskProcessRequest mask co ib dec ob ac cv,
          .droptable "_images_to_mask_"],
         .error (.droptable "_images_to_mask_"), mask⟩
      else
        ⟨[maskAlterRequest mask, maskJoinRequest image mask,
          maskProcessRequest mask co ib dec ob ac cv,
          .droptable "_images_to_mask_"],
         .ok (), maskRename mask⟩) := by
  cases h1 : env (maskAlterRequest mask) <;>
    cases h2 : env (maskJoinRequest image mask) <;>
      cases h3 : env (maskProcessRequest mask co ib dec ob ac cv) <;>
        cases h4 : env (Request.droptable "_images_to_mask_") <;>
          simp_all [mask_image, runSeq, maskAlterRequest, maskJoinRequest,
                    maskProcessRequest, maskRename]

/-- C1: every SQL statement submitted to the remote SQL action by
`quantify_sphericity` is the statement that creates the caller-named output
table as a projection of the columns `_path_`, `_perimeter_`, `_content_`
and the derived column `sphericity`, defined by the expression
`(power(pi(), 1.0/3.0) * power(6*_content_, 2.0/3.0))/_perimeter_`
(that is, `(pi^(1/3) * (6*_content_)^(2/3)) / _perimeter_`), computed over
the intermediate table `quantify`. -/
theorem quantify_sphericity_sql_statement (env : Env) (it : ImageTable)
    (us : Bool) (ib : Rat) (lc : LabelConnectivity) (out : String) (s : String)
    (h : Request.execdirect s ∈ (quantify_sphericity env it us ib lc out).trace) :
    s = "\n            create table " ++ out ++
        " as \n            select _path_,_perimeter_,_content_, (power(pi(), 1.0/3.0) * power(6*_content_, 2.0/3.0))/_perimeter_ as \n            sphericity from quantify\n            " := by
  rw [quantify_sphericity_run] at h
  split_ifs at h <;> simp_all [quantifyRequest, sphericitySQL]

/-- C1 witness: a concrete successful call in whose trace the submitted SQL
statement occurs, and the statement it equals. -/
theorem quantify_sphericity_sql_statement_witness :
    Request.execdirect (sphericitySQL "spher_out") ∈
      (quantify_sphericity envAllOk exImage true 0 .FACE "spher_out").trace
    ∧ sphericitySQL "spher_out" =
        "\n            create table " ++ "spher_out" ++
        " as \n            select _path_,_perimeter_,_content_, (power(pi(), 1.0/3.0) * power(6*_content_, 2.0/3.0))/_perimeter_ as \n            sphericity from quantify\n            " :=
  ⟨by decide,
   quantify_sphericity_sql_statement envAllOk exImage true 0 .FACE "spher_out"
     (sphericitySQL "spher_out") (by decide)⟩

/-- C2 counterexample: the claim also asserts that no drop request ever names
the caller's output table, for every call; but the cleanup step always drops
the fixed name `quantify`, so a caller who names the output table `quantify`
gets a completed call whose drop request names exactly the caller's output
table. -/
theorem quantify_sphericity_drop_names_output :
    (quantify_sphericity envAllOk exImage true 0 .FACE "quantify").result = .ok ()
    ∧ Request.droptable "quantify" ∈
        (quantify_sphericity envAllOk exImage true 0 .FACE "quantify").trace := by
  constructor
  · decide
  · decide

/-- C2 amended: for every call that completes, exactly three requests are
issued in order (the quantification action writing to `quantify`, the SQL
action whose statement is built from the caller-supplied output name, the
drop of `quantify`); and — provided the caller's output table is not itself
named `quantify` — no drop request names the caller's output table. -/
theorem quantify_sphericity_request_order (env : Env) (it : ImageTable)
    (us : Bool) (ib : Rat) (lc : LabelConnectivity) (out : String)
    (h : (quantify_sphericity env it us ib lc out).result = .ok ()) :
    (quantify_sphericity env it us ib lc out).trace =
      [quantifyRequest it us ib lc, .execdirect (sphericitySQL out),
       .droptable "quantify"]
    ∧ (out ≠ "quantify" →
        ∀ n, Request.droptable n ∈ (quantify_sphericity env it us ib lc out).trace →
          n ≠ out) := by
  rw [quantify_sphericity_run] at h ⊢
  split_ifs at h ⊢ with h1 h2 h3
  refine ⟨rfl, ?_⟩
  intro hout n hn
  simp only [List.mem_cons, List.not_mem_nil, or_false] at hn
  rcases hn with hn | hn | hn
  · exact absurd hn (by simp [quantifyRequest])
  · exact absurd hn (by simp)
  · rw [Request.droptable.injEq] at hn
    subst hn
    exact fun he => hout he.symm

/-- C2 witness: a concrete completed call with a distinct output name, at
which the amended order and no-drop-of-output properties hold. -/
theorem quantify_sphericity_request_order_witness :
    (quantify_sphericity envAllOk exImage true 0 .FACE "spher_out").result = .ok ()
    ∧ ((quantify_sphericity envAllOk exImage true 0 .FACE "spher_out").trace =
        [quantifyRequest exImage true 0 .FACE,
         .execdirect (sphericitySQL "spher_out"), .droptable "quantify"]
      ∧ ("spher_out" ≠ "quantify" →
          ∀ n, Request.droptable n ∈
              (quantify_sphericity envAllOk exImage true 0 .FACE "spher_out").trace →
            n ≠ "spher_out")) :=
  ⟨by decide,
   quantify_sphericity_request_order envAllOk exImage true 0 .FACE "spher_out"
     (by decide)⟩

/-- C3: for every `mask_image` call that completes, the requests are issued
in exactly this order — alter-table rename, join SQL creating
`_images_to_mask_`, the masking/process action, the drop of
`_images_to_mask_` — and the caller's `mask` object carries the renamed
column names exactly when the call completed; on any failure (the drop
included) the `mask` object is unchanged, so the local rename never happens
before the drop has returned successfully. -/
theorem mask_image_request_order (env : Env) (image mask : ImageTable)
    (co : String) (ib : Int) (dec : Bool) (ob : Int)
    (ac cv : Option (List String)) :
    ((mask_image env image mask co ib dec ob ac cv).result = .ok () →
      (mask_image env image mask co ib dec ob ac cv).trace =
        [maskAlterRequest mask, maskJoinRequest image mask,
         maskProcessRequest mask co ib dec ob ac cv,
         .droptable "_images_to_mask_"]
      ∧ (mask_image env image mask co ib dec ob ac cv).mask = maskRename mask)
    ∧ (∀ r, (mask_image env image mask co ib dec ob ac cv).result = .error r →
        (mask_image env image mask co ib dec ob ac cv).mask = mask) := by
  rw [mask_image_run]
  split_ifs <;> simp

/-- C3 witness: a concrete completed call, its four-request trace and the
renamed mask object. -/
theorem mask_image_request_order_witness :
    (mask_image envAllOk exImage exMaskDecoded "masked" 0 false 0 none none).result
      = .ok ()
    ∧ ((mask_image envAllOk exImage exMaskDecoded "masked" 0 false 0 none none).trace =
        [maskAlterRequest exMaskDecoded, maskJoinRequest exImage exMaskDecoded,
         maskProcessRequest exMaskDecoded "masked" 0 false 0 none none,
         .droptable "_images_to_mask_"]
      ∧ (mask_image envAllOk exImage exMaskDecoded "masked" 0 false 0 none none).mask
          = maskRename exMaskDecoded) :=
  ⟨by decide,
   (mask_image_request_order envAllOk exImage exMaskDecoded "masked" 0 false 0
      none none).1 (by decide)⟩

/-- C4: the alter-table request of every `mask_image` call is the first
request issued, names the mask's remote table, and carries exactly four
rename directives (`mask.image`→`seg`, `mask.dimension`→`dim`,
`mask.resolution`→`res`, `mask.imageFormat`→`form`) when
`mask.has_decoded_images()` is true, and exactly the one directive
`mask.image`→`seg` when it is false. -/
theorem mask_image_alter_directives (env : Env) (image mask : ImageTable)
    (co : String) (ib : Int) (dec : Bool) (ob : Int)
    (ac cv : Option (List String)) :
    (mask_image env image mask co ib dec ob ac cv).trace.head? =
      some (.altertable mask.tableName
        (if mask.hasDecodedImages then
          [⟨mask.image, "seg"⟩, ⟨mask.dimension, "dim"⟩,
           ⟨mask.resolution, "res"⟩, ⟨mask.imageFormat, "form"⟩]
        else [⟨mask.image, "seg"⟩])) := by
  rw [mask_image_run]
  split_ifs <;>
    simp_all [maskAlterRequest, decodedAlterColumns, encodedAlterColumns]

/-- C5: after a successful `mask_image` call, the mask object's column-name
attributes equal the short names of the alter-table directives: all four of
them in the decoded branch, and in the encoded branch only `image` becomes
`seg` while every other attribute keeps its prior value (stated as a record
update of the entry value of `mask`). -/
theorem mask_image_metadata_after_success (env : Env) (image mask : ImageTable)
    (co : String) (ib : Int) (dec : Bool) (ob : Int)
    (ac cv : Option (List String))
    (h : (mask_image env image mask co ib dec ob ac cv).result = .ok ()) :
    (mask.decodedImages = true →
      (mask_image env image mask co ib dec ob ac cv).mask =
        { mask with image := "seg", dimension := "dim",
                    resolution := "res", imageFormat := "form" })
    ∧ (mask.decodedImages = false →
      (mask_image env image mask co ib dec ob ac cv).mask =
        { mask with image := "seg" }) := by
  rw [mask_image_run] at h ⊢
  split_ifs at h ⊢ with h1 h2 h3 h4
  constructor <;> intro hd <;>
    simp [maskRename, ImageTable.hasDecodedImages, hd,
          renameColumnsDecoded, renameColumnsEncoded]

/-- C5 witness: a concrete successful decoded-branch call after which the
mask object's attributes are the four short names. -/
theorem mask_image_metadata_after_success_witness :
    (mask_image envAllOk exImage exMaskDecoded "masked" 0 false 0 none none).result
      = .ok ()
    ∧ ((exMaskDecoded.decodedImages = true →
        (mask_image envAllOk exImage exMaskDecoded "masked" 0 false 0 none none).mask =
          { exMaskDecoded with image := "seg", dimension := "dim",
                               resolution := "res", imageFormat := "form" })
      ∧ (exMaskDecoded.decodedImages = false →
        (mask_image envAllOk exImage exMaskDecoded "masked" 0 false 0 none none).mask =
          { exMaskDecoded with image := "seg" })) :=
  ⟨by decide,
   mask_image_metadata_after_success envAllOk exImage exMaskDecoded "masked"
     0 false 0 none none (by decide)⟩

/-- C6: if the join SQL request of a `mask_image` call raises, no
masking/process request is ever issued by that call, and the mask object
still holds every attribute value it had on entry. -/
theorem mask_image_join_failure_no_process (env : Env) (image mask : ImageTable)
    (co : String) (ib : Int) (dec : Bool) (ob : Int)
    (ac cv : Option (List String)) (s : String)
    (h : (mask_image env image mask co ib dec ob ac cv).result =
          .error (.execdirect s)) :
    (∀ x ∈ (mask_image env image mask co ib dec ob ac cv).trace,
      x.isProcess = false)
    ∧ (mask_image env image mask co ib dec ob ac cv).mask = mask := by
  rw [mask_image_run] at h ⊢
  split_ifs at h ⊢ with h1 h2 h3 h4 <;>
    simp_all [maskAlterRequest, maskJoinRequest, maskProcessRequest,
              Request.isProcess]

/-- C6 witness: a concrete call on a remote layer where exactly the SQL
requests raise: the trace holds no process request and the mask is
untouched. -/
theorem mask_image_join_failure_no_process_witness :
    (mask_image envFailSql exImage exMaskDecoded "masked" 0 false 0 none none).result
      = .error (.execdirect (decodedFedSqlStr "lesion_masks" "ct_scans"))
    ∧ ((∀ x ∈ (mask_image envFailSql exImage exMaskDecoded "masked" 0 false 0
          none none).trace, x.isProcess = false)
      ∧ (mask_image envFailSql exImage exMaskDecoded "masked" 0 false 0
          none none).mask = exMaskDecoded) :=
  ⟨by decide,
   mask_image_join_failure_no_process envFailSql exImage exMaskDecoded "masked"
     0 false 0 none none (decodedFedSqlStr "lesion_masks" "ct_scans")
     (by decide)⟩

/-- C7: constructing the wrapper with a session handle issues only
capability-enable (`loadactionset`) requests — so nothing else is issued
before them — and when construction completes these are exactly the three
requests named `image`, `biomedimage` and `fedsql`, in that order. -/
theorem biomedimage_init_loadactionsets (env : Env) (s : CAS) :
    (∀ r ∈ (BiomedImage.init env (some s)).trace,
      ∃ n, r = Request.loadactionset n)
    ∧ (∀ b, (BiomedImage.init env (some s)).result = .ok b →
        (BiomedImage.init env (some s)).trace =
          [Request.loadactionset "image", Request.loadactionset "biomedimage",
           Request.loadactionset "fedsql"]) := by
  cases h1 : env (.loadactionset "image") <;>
    cases h2 : env (.loadactionset "biomedimage") <;>
      cases h3 : env (.loadactionset "fedsql") <;>
        simp_all [BiomedImage.init, runSeq]

/-- C7 witness: a concrete construction whose trace is exactly the three
capability-enable requests. -/
theorem biomedimage_init_loadactionsets_witness :
    Request.loadactionset "fedsql" ∈ (BiomedImage.init envAllOk (some ⟨1⟩)).trace
    ∧ (∃ n, Request.loadactionset "fedsql" = Request.loadactionset n)
    ∧ (BiomedImage.init envAllOk (some ⟨1⟩)).result = .ok ⟨some ⟨1⟩⟩
    ∧ (BiomedImage.init envAllOk (some ⟨1⟩)).trace =
        [Request.loadactionset "image", Request.loadactionset "biomedimage",
         Request.loadactionset "fedsql"] :=
  ⟨by decide,
   (biomedimage_init_loadactionsets envAllOk ⟨1⟩).1 _ (by decide),
   by decide,
   (biomedimage_init_loadactionsets envAllOk ⟨1⟩).2 ⟨some ⟨1⟩⟩ (by decide)⟩

/-- C8: in both `quantify_sphericity` and `mask_image`, when the run fails
at a request that is not the table drop, then no drop request appears in the
trace at all (the temporary table `quantify`, resp. `_images_to_mask_`, is
left behind), and the propagated error is exactly the request whose remote
call failed. -/
theorem early_failure_skips_cleanup (env : Env) (it : ImageTable) (us : Bool)
    (ib : Rat) (lc : LabelConnectivity) (out : String)
    (image mask : ImageTable) (co : String) (mib : Int) (dec : Bool)
    (mob : Int) (ac cv : Option (List String)) (r r' : Request) :
    ((quantify_sphericity env it us ib lc out).result = .error r →
      r.isDrop = false →
      env r = false
      ∧ ∀ x ∈ (quantify_sphericity env it us ib lc out).trace,
          x.isDrop = false)
    ∧ ((mask_image env image mask co mib dec mob ac cv).result = .error r' →
      Request.isDrop r' = false →
      env r' = false
      ∧ ∀ x ∈ (mask_image env image mask co mib dec mob ac cv).trace,
          x.isDrop = false) := by
  constructor
  · intro h hr
    rw [quantify_sphericity_run] at h ⊢
    split_ifs at h ⊢ with h1 h2 h3
    · injection h with h'
      subst h'
      exact ⟨h1, by simp [quantifyRequest, Request.isDrop]⟩
    · injection h with h'
      subst h'
      exact ⟨h2, by simp [quantifyRequest, Request.isDrop]⟩
    · injection h with h'
      subst h'
      simp [Request.isDrop] at hr
  · intro h hr
    rw [mask_image_run] at h ⊢
    split_ifs at h ⊢ with h1 h2 h3 h4
    · injection h with h'
      subst h'
      exact ⟨h1, by simp [maskAlterRequest, Request.isDrop]⟩
    · injection h with h'
      subst h'
      refine ⟨h2, ?_⟩
      intro x hx
      simp only [List.mem_cons, List.not_mem_nil, or_false] at hx
      rcases hx with hx | hx
      · subst hx; simp [maskAlterRequest, Request.isDrop]
      · subst hx; simp [maskJoinRequest, Request.isDrop]
    · injection h with h'
      subst h'
      refine ⟨h3, ?_⟩
      intro x hx
      simp only [List.mem_cons, List.not_mem_nil, or_false] at hx
      rcases hx with hx | hx | hx
      · subst hx; simp [maskAlterRequest, Request.isDrop]
      · subst hx; simp [maskJoinRequest, Request.isDrop]
      · subst hx; simp [maskProcessRequest, Request.isDrop]
    · injection h with h'
      subst h'
      simp [Request.isDrop] at hr

/-- C8 witness: on a remote layer failing exactly at SQL requests, both
methods fail at their SQL step, no drop request is in either trace, and the
propagated error is the failing request. -/
theorem early_failure_skips_cleanup_witness :
    ((quantify_sphericity envFailSql exImage true 0 .FACE "spher_out").result =
        .error (.execdirect (sphericitySQL "spher_out"))
      ∧ Request.isDrop (.execdirect (sphericitySQL "spher_out")) = false
      ∧ (envFailSql (.execdirect (sphericitySQL "spher_out")) = false
        ∧ ∀ x ∈ (quantify_sphericity envFailSql exImage true 0 .FACE
              "spher_out").trace, x.isDrop = false))
    ∧ ((mask_image envFailSql exImage exMaskEncoded "masked" 0 false 0
          none none).result =
        .error (.execdirect (encodedFedSqlStr "lesion_masks" "ct_scans"))
      ∧ Request.isDrop (.execdirect (encodedFedSqlStr "lesion_masks" "ct_scans"))
          = false
      ∧ (envFailSql (.execdirect (encodedFedSqlStr "lesion_masks" "ct_scans"))
          = false
        ∧ ∀ x ∈ (mask_image envFailSql exImage exMaskEncoded "masked" 0 false 0
              none none).trace, x.isDrop = false)) :=
  ⟨⟨by decide, by decide,
    (early_failure_skips_cleanup envFailSql exImage true 0 .FACE "spher_out"
        exImage exMaskEncoded "masked" 0 false 0 none none
        (.execdirect (sphericitySQL "spher_out"))
        (.execdirect (encodedFedSqlStr "lesion_masks" "ct_scans"))).1
      (by decide) (by decide)⟩,
   ⟨by decide, by decide,
    (early_failure_skips_cleanup envFailSql exImage true 0 .FACE "spher_out"
        exImage exMaskEncoded "masked" 0 false 0 none none
        (.execdirect (sphericitySQL "spher_out"))
        (.execdirect (encodedFedSqlStr "lesion_masks" "ct_scans"))).2
      (by decide) (by decide)⟩⟩

/-- C9: in both branches of `mask_image`, the join SQL submitted to the
remote SQL action joins the mask table and the image table on the literal
column name `_id_` on both sides (the statement ends in
`on a._id_=b._id_`), and the issued trace is unchanged under any values of
the identifier-column metadata of either `ImageTable` argument. -/
theorem mask_image_join_literal_id (env : Env) (image mask : ImageTable)
    (co : String) (ib : Int) (dec : Bool) (ob : Int)
    (ac cv : Option (List String)) (s : String)
    (h : Request.execdirect s ∈
          (mask_image env image mask co ib dec ob ac cv).trace) :
    (s = if mask.decodedImages then
          "create table _images_to_mask_ as \n                select a.seg, a.dim, a.res, a.form, b.* \n                from "
            ++ mask.tableName ++ " as a inner join " ++ image.tableName ++
            " as b \n                on a._id_=b._id_"
        else
          "create table _images_to_mask_ as \n                select a.seg, b.* \n                from "
            ++ mask.tableName ++ " as a inner join " ++ image.tableName ++
            " as b \n                on a._id_=b._id_")
    ∧ ∀ i j : String,
        (mask_image env { image with idColumn := i }
            { mask with idColumn := j } co ib dec ob ac cv).trace
          = (mask_image env image mask co ib dec ob ac cv).trace := by
  constructor
  · rw [mask_image_run] at h
    split_ifs at h <;>
      simp_all [maskAlterRequest, maskJoinRequest, maskProcessRequest,
                decodedFedSqlStr, encodedFedSqlStr, ImageTable.hasDecodedImages]
  · intro i j
    have ha : maskAlterRequest { mask with idColumn := j } =
        maskAlterRequest mask := rfl
    have hj : maskJoinRequest { image with idColumn := i }
        { mask with idColumn := j } = maskJoinRequest image mask := rfl
    have hp : maskProcessRequest { mask with idColumn := j } co ib dec ob ac cv =
        maskProcessRequest mask co ib dec ob ac cv := rfl
    rw [mask_image_run, mask_image_run, ha, hj, hp]
    split_ifs <;> rfl

/-- C9 witness: a concrete decoded-branch call whose join SQL is in the
trace and equals the decoded-branch statement joining on `_id_`. -/
theorem mask_image_join_literal_id_witness :
    Request.execdirect (decodedFedSqlStr "lesion_masks" "ct_scans") ∈
      (mask_image envAllOk exImage exMaskDecoded "masked" 0 false 0
        none none).trace
    ∧ ((decodedFedSqlStr "lesion_masks" "ct_scans" =
        if exMaskDecoded.decodedImages then
          "create table _images_to_mask_ as \n                select a.seg, a.dim, a.res, a.form, b.* \n                from "
            ++ exMaskDecoded.tableName ++ " as a inner join "
            ++ exImage.tableName ++ " as b \n                on a._id_=b._id_"
        else
          "create table _images_to_mask_ as \n                select a.seg, b.* \n                from "
            ++ exMaskDecoded.tableName ++ " as a inner join "
            ++ exImage.tableName ++ " as b \n                on a._id_=b._id_")
      ∧ ∀ i j : String,
          (mask_image envAllOk { exImage with idColumn := i }
              { exMaskDecoded with idColumn := j } "masked" 0 false 0
              none none).trace
            = (mask_image envAllOk exImage exMaskDecoded "masked" 0 false 0
                none none).trace) :=
  ⟨by decide,
   mask_image_join_literal_id envAllOk exImage exMaskDecoded "masked" 0 false 0
     none none (decodedFedSqlStr "lesion_masks" "ct_scans") (by decide)⟩

/-- C10: constructing `BiomedImage` with the declared default
`cas_session=None` raises before any remote request is issued (calling
`.loadactionset` on `None` raises `AttributeError`), and every successfully
constructed instance stores the non-`None` session it was given. -/
theorem biomedimage_init_none_raises (env : Env) :
    (BiomedImage.init env none).result = .error .attributeErrorNoneSession
    ∧ (BiomedImage.init env none).trace = []
    ∧ ∀ (oc : Option CAS) (b : BiomedImage),
        (BiomedImage.init env oc).result = .ok b →
          ∃ c, oc = some c ∧ b.cas_session = some c := by
  refine ⟨rfl, rfl, ?_⟩
  intro oc b h
  cases oc with
  | none => simp [BiomedImage.init] at h
  | some c =>
      refine ⟨c, rfl, ?_⟩
      cases h1 : env (.loadactionset "image") <;>
        cases h2 : env (.loadactionset "biomedimage") <;>
          cases h3 : env (.loadactionset "fedsql") <;>
            simp_all [BiomedImage.init, runSeq]
      exact h ▸ rfl

/-- C10 witness: a concrete successful construction stores exactly the
session handle it was given. -/
theorem biomedimage_init_none_raises_witness :
    (BiomedImage.init envAllOk (some ⟨7⟩)).result = .ok ⟨some ⟨7⟩⟩
    ∧ ∃ c, (some (⟨7⟩ : CAS)) = some c
        ∧ (BiomedImage.mk (some ⟨7⟩)).cas_session = some c :=
  ⟨by decide,
   (biomedimage_init_none_raises envAllOk).2.2 (some ⟨7⟩) ⟨some ⟨7⟩⟩
     (by decide)⟩

end CVPy
